import Mathlib

/-!
Verification of the snapshot lifecycle manager (`snapshots.py`).

This file gives a shallow embedding of the parts of the program that the
specification talks about: the retention selector, the notification retry
loops, snapshot creation with its action-polling loop, the paginated
snapshot listers, the deletion loop, the per-server workflow, and the
run-level success/failure accounting with the process exit code.

Conventions of the embedding:
* Timestamps are seconds (`Nat`); `created_at` fields hold the parsed
  UTC instant of a snapshot as a number of seconds since the epoch.
* Network effects are passed in as explicit data: a page of an HTTP
  listing is a value of an inductive type (`request failed` vs a payload),
  poll responses are a function from poll index to response, and so on.
* Python exceptions that the code catches are modelled as explicit
  failure constructors of those response types; functions the code writes
  as fallible return `Option`.
* `time.sleep` calls are recorded as the list of slept durations, so that
  backoff schedules are part of the function's result.
-/

/-- One snapshot record as built by the listing code: remote id, display
name, and the parsed creation timestamp (UTC, seconds since epoch). -/
structure Snap where
  id : String
  name : String
  created_at : Nat
deriving DecidableEq, Repr

/-- The ordering used by `identify_snapshots_to_delete`:
`snapshots.sort(key=lambda x: x['created_at'], reverse=True)` sorts by
creation timestamp, newest first. `descByCreated a b` says `a` may come
before `b` in that order. -/
def descByCreated (a b : Snap) : Prop := b.created_at ≤ a.created_at

instance : DecidableRel descByCreated :=
fun a b => inferInstanceAs (Decidable (b.created_at ≤ a.created_at))

instance : IsTotal Snap descByCreated :=
⟨fun a b => Nat.le_total b.created_at a.created_at⟩

instance : IsTrans Snap descByCreated :=
⟨fun _ _ _ hab hbc => Nat.le_trans hbc hab⟩

/-- `identify_snapshots_to_delete` (snapshots.py:900-907).  Python sorts
the caller's list **in place** (stably, newest first) and returns the
slice `snapshots[retain:]`.  The embedding returns the pair
(state of the caller's list after the call, list returned for deletion);
`List.insertionSort` is a stable sort, matching Python's `list.sort`. -/
def identify_snapshots_to_delete (snapshots : List Snap) (retain : Nat) :
    List Snap × List Snap :=
  let sorted := List.insertionSort descByCreated snapshots
  (sorted, sorted.drop retain)

lemma identify_fst_perm (S : List Snap) (r : Nat) :
    (identify_snapshots_to_delete S r).1.Perm S :=
  List.perm_insertionSort descByCreated S

lemma identify_fst_sorted (S : List Snap) (r : Nat) :
    List.Pairwise descByCreated (identify_snapshots_to_delete S r).1 :=
  List.sorted_insertionSort descByCreated S

lemma identify_split (S : List Snap) (r : Nat) :
    (identify_snapshots_to_delete S r).1
      = (identify_snapshots_to_delete S r).1.take r
          ++ (identify_snapshots_to_delete S r).2 :=
  (List.take_append_drop r _).symm

/-- Claim C1 (amended): `identify_snapshots_to_delete S r` returns exactly
`|S| - r` records (truncated subtraction, i.e. `max 0 (|S| - r)`); every
returned record is **no newer** (`≤` by creation timestamp) than every kept
record; the kept records are the `r` first entries of a descending-sorted
permutation of `S` (the `r` most recent up to ties); and the returned
records are in non-increasing timestamp order.  (The original strict
"strictly older" comparison fails when timestamps tie; see the
counterexample.) -/
theorem identify_snapshots_to_delete_spec (S : List Snap) (r : Nat) :
    (identify_snapshots_to_delete S r).2.length = S.length - r
    ∧ (∀ d ∈ (identify_snapshots_to_delete S r).2,
        ∀ k ∈ (identify_snapshots_to_delete S r).1.take r,
          d.created_at ≤ k.created_at)
    ∧ List.Pairwise (fun a b => b.created_at ≤ a.created_at)
        (identify_snapshots_to_delete S r).2
    ∧ (identify_snapshots_to_delete S r).1.Perm S
    ∧ List.Pairwise (fun a b => b.created_at ≤ a.created_at)
        (identify_snapshots_to_delete S r).1
    ∧ (identify_snapshots_to_delete S r).1
        = (identify_snapshots_to_delete S r).1.take r
            ++ (identify_snapshots_to_delete S r).2 := by
  have hperm := identify_fst_perm S r
  have hsorted := identify_fst_sorted S r
  have hsplit := identify_split S r
  have hcross :
      List.Pairwise descByCreated ((identify_snapshots_to_delete S r).1.take r)
      ∧ List.Pairwise descByCreated (identify_snapshots_to_delete S r).2
      ∧ ∀ k ∈ (identify_snapshots_to_delete S r).1.take r,
          ∀ d ∈ (identify_snapshots_to_delete S r).2, descByCreated k d := by
    rw [← List.pairwise_append]
    exact hsplit ▸ hsorted
  refine ⟨?_, ?_, ?_, hperm, hsorted, hsplit⟩
  · show ((List.insertionSort descByCreated S).drop r).length = S.length - r
    rw [List.length_drop, (List.perm_insertionSort descByCreated S).length_eq]
  · intro d hd k hk
    exact hcross.2.2 k hk d hd
  · exact hcross.2.1

/-- Claim C1, counterexample to the original statement: with two snapshots
sharing a creation timestamp and `retain = 1`, the deleted record has the
same timestamp as the kept record, so it is not *strictly* older. -/
theorem identify_snapshots_to_delete_strict_counterexample :
    (identify_snapshots_to_delete
        [⟨"a", "a", 5⟩, ⟨"b", "b", 5⟩] 1).2 = [⟨"b", "b", 5⟩]
    ∧ (identify_snapshots_to_delete
        [⟨"a", "a", 5⟩, ⟨"b", "b", 5⟩] 1).1.take 1 = [⟨"a", "a", 5⟩]
    ∧ ¬ (∀ d ∈ (identify_snapshots_to_delete
            [⟨"a", "a", 5⟩, ⟨"b", "b", 5⟩] 1).2,
          ∀ k ∈ (identify_snapshots_to_delete
            [⟨"a", "a", 5⟩, ⟨"b", "b", 5⟩] 1).1.take 1,
            d.created_at < k.created_at) := by
  refine ⟨by decide, by decide, ?_⟩
  intro h
  exact absurd (h ⟨"b", "b", 5⟩ (by decide) ⟨"a", "a", 5⟩ (by decide))
    (by decide)

/-- Claim C5, counterexample: `identify_snapshots_to_delete` is **not**
free of side effects on the caller's list — Python's in-place
`snapshots.sort(..., reverse=True)` reorders it.  With the list
`[older, newer]` the caller's list afterwards is `[newer, older]`,
not the original order. -/
theorem identify_snapshots_to_delete_mutation_counterexample :
    (identify_snapshots_to_delete
        [⟨"a", "a", 1⟩, ⟨"b", "b", 2⟩] 0).1
      ≠ [⟨"a", "a", 1⟩, ⟨"b", "b", 2⟩] := by
  decide

/-- Claim C5 (amended): `identify_snapshots_to_delete` mutates the
caller's list, but only by stably sorting it: after the call the list
holds exactly the same elements (a permutation of the input), arranged in
non-increasing timestamp order; and both the final list state and the
returned deletion list are deterministic pure functions of the input list
and the retain count (immediate in this pure embedding). -/
theorem identify_snapshots_to_delete_frame (S : List Snap) (r : Nat) :
    (identify_snapshots_to_delete S r).1.Perm S
    ∧ List.Pairwise (fun a b => b.created_at ≤ a.created_at)
        (identify_snapshots_to_delete S r).1
    ∧ (identify_snapshots_to_delete S r).2
        = (identify_snapshots_to_delete S r).1.drop r :=
  ⟨identify_fst_perm S r, identify_fst_sorted S r, rfl⟩

/-- Claim C7: deletion candidates are chosen from the pre-creation
snapshot list only — every candidate is an element of that list, so a
snapshot that is not in the pre-creation list (in particular the one
created afterwards in step 3) is never among the records deleted in
step 4. -/
theorem new_snapshot_never_deleted (S : List Snap) (r : Nat) (snap : Snap)
    (h : snap ∉ S) : snap ∉ (identify_snapshots_to_delete S r).2 := by
  intro hmem
  apply h
  have hsub : snap ∈ (identify_snapshots_to_delete S r).1 :=
    List.mem_of_mem_drop hmem
  exact (identify_fst_perm S r).mem_iff.mp hsub

/-- Claim C7, witness: a concrete instantiation of
`new_snapshot_never_deleted`. -/
theorem new_snapshot_never_deleted_witness :
    (⟨"new", "srv-20260101", 9⟩ : Snap) ∉
      (identify_snapshots_to_delete [⟨"1", "srv-a", 3⟩, ⟨"2", "srv-b", 7⟩] 1).2 :=
  new_snapshot_never_deleted [⟨"1", "srv-a", 3⟩, ⟨"2", "srv-b", 7⟩] 1
    ⟨"new", "srv-20260101", 9⟩ (by decide)

/-- One pass of the notification retry loop shared (verbatim in structure)
by `send_telegram_notification` (snapshots.py:315-342) and
`send_webhook_notification` (snapshots.py:374-415):
`for attempt in range(1, max_retries + 1)` tries the request (outcome
given by `outcome attempt`; `false` covers any non-2xx response or caught
transport exception), returns `true` on success, and otherwise, if more
attempts remain, sleeps `base_delay * 2 ** (attempt - 1)` seconds.
Falling off the loop returns `false`.
`remaining` counts the attempts still allowed (`max_retries + 1 - attempt`);
the result records (returned flag, number of attempts made, list of sleep
durations in order). -/
def notificationRetryAux (baseDelay : Nat) (outcome : Nat → Bool) :
    Nat → Nat → Bool × Nat × List Nat
  | _, 0 => (false, 0, [])
  | attempt, remaining + 1 =>
    if outcome attempt then (true, 1, [])
    else if remaining = 0 then (false, 1, [])
    else
      let r := notificationRetryAux baseDelay outcome (attempt + 1) remaining
      (r.1, r.2.1 + 1, baseDelay * 2 ^ (attempt - 1) :: r.2.2)

/-- `send_telegram_notification` (snapshots.py:283-342): skipped entirely
(`false`, no attempt) when bot token or chat id is missing, otherwise the
retry loop with `max_retries` total attempts. -/
def send_telegram_notification (token chatId : String)
    (retries baseDelay : Nat) (outcome : Nat → Bool) : Bool × Nat × List Nat :=
  if token = "" ∨ chatId = "" then (false, 0, [])
  else notificationRetryAux baseDelay outcome 1 retries

/-- `send_webhook_notification` (snapshots.py:344-415): skipped entirely
when no URL is configured, otherwise the retry loop with `max_retries`
total attempts. -/
def send_webhook_notification (url : String)
    (retries baseDelay : Nat) (outcome : Nat → Bool) : Bool × Nat × List Nat :=
  if url = "" then (false, 0, [])
  else notificationRetryAux baseDelay outcome 1 retries

lemma notificationRetryAux_allFail (baseDelay : Nat) (outcome : Nat → Bool)
    (hfail : ∀ k, outcome k = false) :
    ∀ remaining attempt, 1 ≤ attempt →
      notificationRetryAux baseDelay outcome attempt remaining
        = (false, remaining,
            (List.range (remaining - 1)).map
              (fun k => baseDelay * 2 ^ (attempt - 1 + k))) := by
  intro remaining
  induction remaining with
  | zero => intro attempt _; rfl
  | succ m ih =>
    intro attempt hatt
    rw [notificationRetryAux, hfail attempt]
    simp only [Bool.false_eq_true, if_false]
    rcases Nat.eq_zero_or_pos m with hm | hm
    · subst hm; simp
    · rw [if_neg (Nat.pos_iff_ne_zero.mp hm)]
      rw [ih (attempt + 1) (by omega)]
      simp only [Nat.add_sub_cancel, Nat.succ_sub_one]
      have hrange : List.range m = 0 :: (List.range (m - 1)).map Nat.succ := by
        conv_lhs => rw [← Nat.succ_pred_eq_of_pos hm]
        rw [List.range_succ_eq_map, Nat.pred_eq_sub_one]
      have hmap :
          List.map (fun k => baseDelay * 2 ^ (attempt - 1 + k)) (List.range m)
            = baseDelay * 2 ^ (attempt - 1)
                :: List.map (fun k => baseDelay * 2 ^ (attempt + k))
                    (List.range (m - 1)) := by
        rw [hrange, List.map_cons, List.map_map]
        refine congrArg₂ List.cons (by simp) ?_
        apply List.map_congr_left
        intro k _
        have hidx : attempt - 1 + Nat.succ k = attempt + k := by omega
        simp [Function.comp, hidx]
      rw [hmap]

/-- Claim C4: a notification channel configured with `N` total attempts and
base delay `d`, whose target fails every attempt (and whose prerequisites —
token/chat id for the chat channel, URL for the webhook channel — are
configured), performs exactly `N` attempts, sleeps
`d * 2 ^ (k - 1)` seconds after the k-th failed attempt for `k = 1 .. N-1`
(the recorded sleep schedule is `[d, 2d, 4d, …]`, nothing after the last
attempt), and returns `false`; exceptions are caught inside the loop, so
the function returns rather than raises. -/
theorem notification_retry_schedule (token chatId url : String)
    (N d : Nat) (outcome : Nat → Bool)
    (htok : token ≠ "") (hchat : chatId ≠ "") (hurl : url ≠ "")
    (hfail : ∀ k, outcome k = false) :
    send_telegram_notification token chatId N d outcome
        = (false, N, (List.range (N - 1)).map (fun k => d * 2 ^ k))
    ∧ send_webhook_notification url N d outcome
        = (false, N, (List.range (N - 1)).map (fun k => d * 2 ^ k)) := by
  have hcore := notificationRetryAux_allFail d outcome hfail N 1 (Nat.le_refl 1)
  simp only [Nat.sub_self, Nat.zero_add] at hcore
  constructor
  · rw [send_telegram_notification, if_neg (by simp [htok, hchat]), hcore]
  · rw [send_webhook_notification, if_neg hurl, hcore]

/-- Claim C4, witness: three attempts with base delay two seconds against
an always-failing target yields exactly three attempts with sleeps of two
then four seconds, and returns failure. -/
theorem notification_retry_schedule_witness :
    send_telegram_notification "tok" "chat" 3 2 (fun _ => false)
        = (false, 3, [2, 4])
    ∧ send_webhook_notification "https" 3 2 (fun _ => false)
        = (false, 3, [2, 4]) := by
  have h := notification_retry_schedule "tok" "chat" "https" 3 2
    (fun _ => false) (by decide) (by decide) (by decide) (fun _ => rfl)
  simpa using h

/-- Left-pad a decimal string with zeros to width `w` (the behaviour of
`strftime`'s zero-padded numeric fields). -/
def pad0 (w : Nat) (s : String) : String :=
  if s.length < w then String.mk (List.replicate (w - s.length) '0') ++ s
  else s

/-- Gregorian civil date (year, month, day) of a day count since
1970-01-01 (days ≥ 0), via the standard era/day-of-era decomposition. -/
def civilFromDays (z : Nat) : Nat × Nat × Nat :=
  let zs := z + 719468
  let era := zs / 146097
  let doe := zs % 146097
  let yoe := (doe - doe / 1460 + doe / 36524 - doe / 146096) / 365
  let y := yoe + era * 400
  let doy := doe - (365 * yoe + yoe / 4 - yoe / 100)
  let mp := (5 * doy + 2) / 153
  let d := doy - (153 * mp + 2) / 5 + 1
  let m := if mp < 10 then mp + 3 else mp - 9
  (if m ≤ 2 then y + 1 else y, m, d)

/-- `strftime("%Y%m%d%H%M%S")` of a clock reading given as seconds since
the epoch: four-digit year then two digits each for month, day, hour,
minute, second. -/
def fmtYYYYMMDDHHMMSS (secs : Nat) : String :=
  let c := civilFromDays (secs / 86400)
  let rem := secs % 86400
  pad0 4 (toString c.1) ++ pad0 2 (toString c.2.1) ++ pad0 2 (toString c.2.2)
    ++ pad0 2 (toString (rem / 3600)) ++ pad0 2 (toString (rem % 3600 / 60))
    ++ pad0 2 (toString (rem % 60))

/-- The machine clock at the moment `create_*_snapshot` runs: the current
UTC instant and the machine's timezone offset.  Python's
`datetime.datetime.now()` (snapshots.py:921, 1010) reads the **local**
wall clock, i.e. UTC shifted by the timezone offset. -/
structure Clock where
  utcNow : Nat
  tzOffset : Int

/-- The local-time reading `datetime.datetime.now()` returns. -/
def Clock.localNow (c : Clock) : Nat :=
  (Int.ofNat c.utcNow + c.tzOffset).toNat

/-- One response to a poll of a provider action: the request raised
(caught `RequestException`, treated as retry) or returned a status
string. -/
inductive PollResp where
  | reqFail : PollResp
  | status : String → PollResp

/-- `_wait_for_digitalocean_action` (snapshots.py:972-1006): polls the
action endpoint until `completed` or `errored`; `in-progress`, unknown
statuses and request failures all sleep five seconds and poll again; the
loop is bounded by the creation timeout, modelled as `fuel` (the number of
polls the timeout budget allows).  Exhausting the budget yields
`"timeout"`. -/
def wait_for_digitalocean_action (polls : Nat → PollResp) :
    Nat → Nat → String
  | _, 0 => "timeout"
  | i, fuel + 1 =>
    match polls i with
    | .reqFail => wait_for_digitalocean_action polls (i + 1) fuel
    | .status s =>
      if s = "completed" then "completed"
      else if s = "errored" then "errored"
      else wait_for_digitalocean_action polls (i + 1) fuel

/-- `_wait_for_hetzner_action` (snapshots.py:1061-1095): identical loop
with terminal statuses `success` / `error`. -/
def wait_for_hetzner_action (polls : Nat → PollResp) :
    Nat → Nat → String
  | _, 0 => "timeout"
  | i, fuel + 1 =>
    match polls i with
    | .reqFail => wait_for_hetzner_action polls (i + 1) fuel
    | .status s =>
      if s = "success" then "success"
      else if s = "error" then "error"
      else wait_for_hetzner_action polls (i + 1) fuel

/-- `create_digitalocean_snapshot` (snapshots.py:919-970): builds the name
from `server.name` and `datetime.datetime.now().strftime("%Y%m%d%H%M%S")`
(the local clock), POSTs the create action (`doPost`: `none` = request
raised, `some none` = no action id in the response, `some (some aid)` =
action id returned), then polls; only a poll result of `completed`
returns the name, every other outcome returns `none`. -/
def create_digitalocean_snapshot (serverName : String) (clock : Clock)
    (doPost : Option (Option Nat)) (fuel : Nat) (polls : Nat → PollResp) :
    Option String :=
  let snapshot_name := serverName ++ "-" ++ fmtYYYYMMDDHHMMSS clock.localNow
  match doPost with
  | none => none
  | some none => none
  | some (some _) =>
    if wait_for_digitalocean_action polls 0 fuel = "completed" then
      some snapshot_name
    else none

/-- `create_hetzner_snapshot` (snapshots.py:1008-1059): same shape; the
POST response must carry both an action id and an image id
(`hPost = some (aid?, iid?)`), and the terminal success status is
`success`. -/
def create_hetzner_snapshot (serverName : String) (clock : Clock)
    (hPost : Option (Option Nat × Option Nat)) (fuel : Nat)
    (polls : Nat → PollResp) : Option String :=
  let snapshot_name := serverName ++ "-" ++ fmtYYYYMMDDHHMMSS clock.localNow
  match hPost with
  | none => none
  | some (a, i) =>
    if a.isSome && i.isSome then
      if wait_for_hetzner_action polls 0 fuel = "success" then
        some snapshot_name
      else none
    else none

/-- Claim C9, counterexample to the original statement: on a machine one
hour east of UTC (`tzOffset = 3600`) at UTC epoch second 0, a successful
creation returns `srv-19700101010000` — the **local** wall-clock
timestamp — which differs from the name built from the UTC time
(`srv-19700101000000`).  The generated name is therefore not
`<display-name>-<UTC timestamp>`. -/
theorem create_snapshot_utc_name_counterexample :
    create_digitalocean_snapshot "srv" ⟨0, 3600⟩ (some (some 1)) 1
        (fun _ => PollResp.status "completed")
      = some "srv-19700101010000"
    ∧ "srv-19700101010000"
        ≠ "srv" ++ "-" ++ fmtYYYYMMDDHHMMSS (Clock.mk 0 3600).utcNow := by
  constructor
  · decide
  · decide

/-- Claim C9 (amended): `create_*_snapshot` generates the snapshot name as
exactly the instance's display name, a hyphen, and the **local** machine
time (`datetime.now()`, i.e. the UTC instant shifted by the timezone
offset) formatted `YYYYMMDDHHMMSS`; it returns that name exactly when the
create request returned the required action id(s) and the polled action
reached the terminal success state (`completed` for DigitalOcean,
`success` for Hetzner); on request failure, a missing id, a terminal
error, or poll timeout it returns `none`. -/
theorem create_snapshot_name_and_success (serverName : String)
    (clock : Clock) (doPost : Option (Option Nat))
    (hPost : Option (Option Nat × Option Nat)) (fuel : Nat)
    (polls : Nat → PollResp) :
    (∀ s, create_digitalocean_snapshot serverName clock doPost fuel polls
        = some s →
      s = serverName ++ "-" ++ fmtYYYYMMDDHHMMSS clock.localNow
      ∧ (∃ aid, doPost = some (some aid))
      ∧ wait_for_digitalocean_action polls 0 fuel = "completed")
    ∧ ((∃ aid, doPost = some (some aid)) →
        wait_for_digitalocean_action polls 0 fuel = "completed" →
        create_digitalocean_snapshot serverName clock doPost fuel polls
          = some (serverName ++ "-" ++ fmtYYYYMMDDHHMMSS clock.localNow))
    ∧ (∀ s, create_hetzner_snapshot serverName clock hPost fuel polls
        = some s →
      s = serverName ++ "-" ++ fmtYYYYMMDDHHMMSS clock.localNow
      ∧ (∃ aid iid, hPost = some (some aid, some iid))
      ∧ wait_for_hetzner_action polls 0 fuel = "success")
    ∧ ((∃ aid iid, hPost = some (some aid, some iid)) →
        wait_for_hetzner_action polls 0 fuel = "success" →
        create_hetzner_snapshot serverName clock hPost fuel polls
          = some (serverName ++ "-" ++ fmtYYYYMMDDHHMMSS clock.localNow)) := by
  refine ⟨?_, ?_, ?_, ?_⟩
  · intro s hs
    match hdo : doPost with
    | none => simp [create_digitalocean_snapshot] at hs
    | some none => simp [create_digitalocean_snapshot] at hs
    | some (some aid) =>
      simp only [create_digitalocean_snapshot] at hs
      by_cases hw : wait_for_digitalocean_action polls 0 fuel = "completed"
      · rw [if_pos hw] at hs
        exact ⟨(Option.some_inj.mp hs).symm, ⟨aid, rfl⟩, hw⟩
      · rw [if_neg hw] at hs; exact absurd hs (by simp)
  · rintro ⟨aid, rfl⟩ hw
    simp only [create_digitalocean_snapshot]
    rw [if_pos hw]
  · intro s hs
    match hh : hPost with
    | none => simp [create_hetzner_snapshot] at hs
    | some (a, i) =>
      simp only [create_hetzner_snapshot] at hs
      by_cases hids : a.isSome && i.isSome
      · rw [if_pos hids] at hs
        by_cases hw : wait_for_hetzner_action polls 0 fuel = "success"
        · rw [if_pos hw] at hs
          obtain ⟨aid, ha⟩ := Option.isSome_iff_exists.mp (by
            exact (Bool.and_eq_true _ _).mp hids |>.1)
          obtain ⟨iid, hi⟩ := Option.isSome_iff_exists.mp (by
            exact (Bool.and_eq_true _ _).mp hids |>.2)
          exact ⟨(Option.some_inj.mp hs).symm, ⟨aid, iid, by rw [ha, hi]⟩, hw⟩
        · rw [if_neg hw] at hs; exact absurd hs (by simp)
      · rw [if_neg hids] at hs; exact absurd hs (by simp)
  · rintro ⟨aid, iid, rfl⟩ hw
    simp only [create_hetzner_snapshot, Option.isSome_some, Bool.and_self,
      if_true]
    rw [if_pos hw]

/-- Claim C9, witness: on a UTC machine (offset 0) with a create request
that returned ids and a first poll answering the terminal success status,
both providers return the locally-formatted name. -/
theorem create_snapshot_name_and_success_witness :
    create_digitalocean_snapshot "srv" ⟨0, 0⟩ (some (some 7)) 1
        (fun _ => PollResp.status "completed") = some "srv-19700101000000"
    ∧ create_hetzner_snapshot "srv" ⟨0, 0⟩ (some (some 7, some 9)) 1
        (fun _ => PollResp.status "success") = some "srv-19700101000000" := by
  have h₁ := (create_snapshot_name_and_success "srv" ⟨0, 0⟩ (some (some 7))
    (some (some 7, some 9)) 1 (fun _ => PollResp.status "completed")).2.1
    ⟨7, rfl⟩ (by decide)
  have h₂ := (create_snapshot_name_and_success "srv" ⟨0, 0⟩ (some (some 7))
    (some (some 7, some 9)) 1 (fun _ => PollResp.status "success")).2.2.2
    ⟨7, 9, rfl⟩ (by decide)
  rw [h₁, h₂]
  constructor
  · decide
  · decide

/-- Python's substring test `needle in hay` on character lists. -/
def containsSeq (needle : List Char) : List Char → Bool
  | [] => needle.isEmpty
  | c :: t => needle.isPrefixOf (c :: t) || containsSeq needle t

/-- Python's `needle in hay` for strings. -/
def pyInStr (needle hay : String) : Bool :=
  containsSeq needle.toList hay.toList

/-- One item of a DigitalOcean `/v2/snapshots` listing page, with the
creation timestamp already put through the ISO-8601 parse: `none` records
a parse failure (the code logs and drops such an item). -/
structure DOItem where
  id : String
  resource_id : String
  name : String
  created : Option Nat
deriving DecidableEq, Repr

/-- One response to a DigitalOcean listing request: the request raised
(caught and logged — the `while` loop breaks) or a page with its items
and whether a `links.pages.next` entry is present. -/
inductive DOPage where
  | reqFail : DOPage
  | ok : List DOItem → Bool → DOPage

/-- The membership filter of `get_digitalocean_snapshots`
(snapshots.py:789): keep an item when its `resource_id` equals the
configured droplet id, or the server's display name occurs in the
snapshot's name. -/
def doItemKeep (serverId serverName : String) (it : DOItem) : Bool :=
  it.resource_id == serverId || pyInStr serverName it.name

/-- The records one DigitalOcean page contributes: matching items whose
timestamp parsed. -/
def doPageSnaps (serverId serverName : String) (items : List DOItem) :
    List Snap :=
  items.filterMap (fun it =>
    if doItemKeep serverId serverName it then
      it.created.map (fun c => ⟨it.id, it.name, c⟩)
    else none)

/-- `get_digitalocean_snapshots` (snapshots.py:751-822): pages are fetched
in order; a raised request breaks the loop and the accumulated list is
returned, an empty page breaks, a page without a `next` link breaks after
contributing its items. -/
def get_digitalocean_snapshots (serverId serverName : String) :
    List DOPage → List Snap
  | [] => []
  | DOPage.reqFail :: _ => []
  | DOPage.ok items hasNext :: rest =>
    if items.isEmpty then []
    else
      doPageSnaps serverId serverName items
        ++ (if hasNext then get_digitalocean_snapshots serverId serverName rest
            else [])

/-- One item of a Hetzner `/v1/images?type=snapshot` page. -/
structure HItem where
  id : String
  description : String
  created : Option Nat
deriving DecidableEq, Repr

/-- One response to a Hetzner listing request (`meta.pagination.next_page`
drives `hasNext`). -/
inductive HPage where
  | reqFail : HPage
  | ok : List HItem → Bool → HPage

/-- The membership filter of `get_hetzner_snapshots` (snapshots.py:863):
the server name occurs in the image description, or the description starts
with it (the second disjunct is subsumed by the first). -/
def hItemKeep (serverName : String) (it : HItem) : Bool :=
  pyInStr serverName it.description || serverName.isPrefixOf it.description

/-- The records one Hetzner page contributes. -/
def hPageSnaps (serverName : String) (items : List HItem) : List Snap :=
  items.filterMap (fun it =>
    if hItemKeep serverName it then
      it.created.map (fun c => ⟨it.id, it.description, c⟩)
    else none)

/-- `get_hetzner_snapshots` (snapshots.py:824-898): same loop shape as the
DigitalOcean lister. -/
def get_hetzner_snapshots (serverName : String) : List HPage → List Snap
  | [] => []
  | HPage.reqFail :: _ => []
  | HPage.ok items hasNext :: rest =>
    if items.isEmpty then []
    else
      hPageSnaps serverName items
        ++ (if hasNext then get_hetzner_snapshots serverName rest else [])

/-- Claim C6, counterexample to the original statement: when the first
page succeeds (with a matching record and a `next` link) and the second
page's request fails, the lister returns the one record of the first page
— a **partial** result, not the empty sequence the claim requires for a
failure on any page.  Both providers behave the same way. -/
theorem get_snapshots_failure_partial_counterexample :
    get_digitalocean_snapshots "1" "srv"
        [DOPage.ok [⟨"10", "2", "srv-x", some 5⟩] true, DOPage.reqFail]
      = [⟨"10", "srv-x", 5⟩]
    ∧ get_digitalocean_snapshots "1" "srv"
        [DOPage.ok [⟨"10", "2", "srv-x", some 5⟩] true, DOPage.reqFail]
      ≠ []
    ∧ get_hetzner_snapshots "srv"
        [HPage.ok [⟨"20", "srv-y", some 6⟩] true, HPage.reqFail]
      = [⟨"20", "srv-y", 6⟩]
    ∧ get_hetzner_snapshots "srv"
        [HPage.ok [⟨"20", "srv-y", some 6⟩] true, HPage.reqFail]
      ≠ [] := by
  refine ⟨by decide, by decide, by decide, by decide⟩

lemma get_do_failure_acc (serverId serverName : String) :
    ∀ (goods : List (List DOItem)) (rest : List DOPage),
      (∀ g ∈ goods, g ≠ []) →
      get_digitalocean_snapshots serverId serverName
          (goods.map (fun g => DOPage.ok g true) ++ DOPage.reqFail :: rest)
        = (goods.map (doPageSnaps serverId serverName)).flatten
  | [], rest, _ => rfl
  | g :: gs, rest, hne => by
    have hg : g.isEmpty = false := by
      simpa using hne g (List.mem_cons_self g gs)
    have ih := get_do_failure_acc serverId serverName gs rest
      (fun x hx => hne x (List.mem_cons_of_mem g hx))
    calc get_digitalocean_snapshots serverId serverName
          ((g :: gs).map (fun g => DOPage.ok g true) ++ DOPage.reqFail :: rest)
        = if g.isEmpty then [] else
            doPageSnaps serverId serverName g
              ++ (if true then get_digitalocean_snapshots serverId serverName
                    (gs.map (fun g => DOPage.ok g true) ++ DOPage.reqFail :: rest)
                  else []) := rfl
      _ = doPageSnaps serverId serverName g
            ++ get_digitalocean_snapshots serverId serverName
                (gs.map (fun g => DOPage.ok g true) ++ DOPage.reqFail :: rest) := by
          rw [hg]; simp
      _ = doPageSnaps serverId serverName g
            ++ (gs.map (doPageSnaps serverId serverName)).flatten := by rw [ih]
      _ = ((g :: gs).map (doPageSnaps serverId serverName)).flatten := by simp

lemma get_h_failure_acc (serverName : String) :
    ∀ (goods : List (List HItem)) (rest : List HPage),
      (∀ g ∈ goods, g ≠ []) →
      get_hetzner_snapshots serverName
          (goods.map (fun g => HPage.ok g true) ++ HPage.reqFail :: rest)
        = (goods.map (hPageSnaps serverName)).flatten
  | [], rest, _ => rfl
  | g :: gs, rest, hne => by
    have hg : g.isEmpty = false := by
      simpa using hne g (List.mem_cons_self g gs)
    have ih := get_h_failure_acc serverName gs rest
      (fun x hx => hne x (List.mem_cons_of_mem g hx))
    calc get_hetzner_snapshots serverName
          ((g :: gs).map (fun g => HPage.ok g true) ++ HPage.reqFail :: rest)
        = if g.isEmpty then [] else
            hPageSnaps serverName g
              ++ (if true then get_hetzner_snapshots serverName
                    (gs.map (fun g => HPage.ok g true) ++ HPage.reqFail :: rest)
                  else []) := rfl
      _ = hPageSnaps serverName g
            ++ get_hetzner_snapshots serverName
                (gs.map (fun g => HPage.ok g true) ++ HPage.reqFail :: rest) := by
          rw [hg]; simp
      _ = hPageSnaps serverName g
            ++ (gs.map (hPageSnaps serverName)).flatten := by rw [ih]
      _ = ((g :: gs).map (hPageSnaps serverName)).flatten := by simp

/-- Claim C6 (amended): a request failure on a listing page logs an error
and stops pagination; the lister returns the records accumulated from the
earlier (successful, non-empty, next-linked) pages — the empty sequence
exactly when the **first** request fails — and never raises, so the
workflow continues.  It does not always return an empty sequence: a
failure on a later page yields the partial list collected so far (see the
counterexample). -/
theorem get_snapshots_request_failure (serverId serverName : String)
    (goodsD : List (List DOItem)) (restD : List DOPage)
    (goodsH : List (List HItem)) (restH : List HPage)
    (hD : ∀ g ∈ goodsD, g ≠ []) (hH : ∀ g ∈ goodsH, g ≠ []) :
    get_digitalocean_snapshots serverId serverName
        (goodsD.map (fun g => DOPage.ok g true) ++ DOPage.reqFail :: restD)
      = (goodsD.map (doPageSnaps serverId serverName)).flatten
    ∧ get_hetzner_snapshots serverName
        (goodsH.map (fun g => HPage.ok g true) ++ HPage.reqFail :: restH)
      = (goodsH.map (hPageSnaps serverName)).flatten
    ∧ get_digitalocean_snapshots serverId serverName (DOPage.reqFail :: restD)
      = []
    ∧ get_hetzner_snapshots serverName (HPage.reqFail :: restH) = [] :=
  ⟨get_do_failure_acc serverId serverName goodsD restD hD,
   get_h_failure_acc serverName goodsH restH hH, rfl, rfl⟩

/-- Claim C6, witness: one successful matching page followed by a failed
request returns exactly that page's record. -/
theorem get_snapshots_request_failure_witness :
    get_digitalocean_snapshots "7" "web"
        [DOPage.ok [⟨"11", "7", "anything", some 3⟩] true, DOPage.reqFail]
      = [⟨"11", "anything", 3⟩]
    ∧ get_hetzner_snapshots "web"
        [HPage.ok [⟨"21", "web-1", some 4⟩] true, HPage.reqFail]
      = [⟨"21", "web-1", 4⟩] := by
  have h := get_snapshots_request_failure "7" "web"
    [[⟨"11", "7", "anything", some 3⟩]] []
    [[⟨"21", "web-1", some 4⟩]] []
    (by decide) (by decide)
  exact ⟨h.1.trans (by decide), h.2.1.trans (by decide)⟩

/-- One response to a snapshot DELETE request: the request raised (caught)
or returned an HTTP status code. -/
inductive DeleteResp where
  | exn : DeleteResp
  | status : Nat → DeleteResp

/-- How the deletion loop disposes of one record: `deleted` (204),
`alreadyGone` (404, logged as a warning — "likely already deleted"), or
`failedLogged` (any other status, or a caught exception; an error is
logged and the loop moves on). -/
inductive DeleteOutcome where
  | deleted : DeleteOutcome
  | alreadyGone : DeleteOutcome
  | failedLogged : DeleteOutcome
deriving DecidableEq, Repr

/-- The per-record branch of `delete_digitalocean_snapshots`
(snapshots.py:1125-1142) and `delete_hetzner_snapshots`
(snapshots.py:1163-1180), which are identical. -/
def classify_delete : DeleteResp → DeleteOutcome
  | .exn => .failedLogged
  | .status c =>
    if c = 204 then .deleted
    else if c = 404 then .alreadyGone
    else .failedLogged

/-- Whether an outcome is treated as an error by the code (error-level
log line); `deleted` and `alreadyGone` are not. -/
def isDeleteError : DeleteOutcome → Bool
  | .failedLogged => true
  | _ => false

/-- The deletion `for` loop: every record in the list is processed in
order (there is no `break` or `raise` on any branch), pairing each
snapshot id with the outcome of its DELETE request. -/
def deleteLoop (resp : Nat → DeleteResp) :
    List Snap → Nat → List (String × DeleteOutcome)
  | [], _ => []
  | s :: rest, i =>
    (s.id, classify_delete (resp i)) :: deleteLoop resp rest (i + 1)

/-- `delete_digitalocean_snapshots` (snapshots.py:1106-1142). -/
def delete_digitalocean_snapshots (snaps : List Snap)
    (resp : Nat → DeleteResp) : List (String × DeleteOutcome) :=
  deleteLoop resp snaps 0

/-- `delete_hetzner_snapshots` (snapshots.py:1144-1180); same loop, only
the endpoint URL differs. -/
def delete_hetzner_snapshots (snaps : List Snap)
    (resp : Nat → DeleteResp) : List (String × DeleteOutcome) :=
  deleteLoop resp snaps 0

lemma deleteLoop_ids (resp : Nat → DeleteResp) :
    ∀ (snaps : List Snap) (i : Nat),
      (deleteLoop resp snaps i).map Prod.fst = snaps.map Snap.id
  | [], _ => rfl
  | s :: rest, i => by
    simp only [deleteLoop, List.map_cons]
    rw [deleteLoop_ids resp rest (i + 1)]

/-- Claim C8: a 404 ("not found") response to a delete request is
classified as `alreadyGone` — logged as a warning, not as an error — and
regardless of the responses (including errors and exceptions on earlier
records), the deletion loop of either provider processes **every** record
in the list in order: the outcome list pairs exactly the input ids, so no
failure aborts the deletion of the remaining records. -/
theorem delete_snapshots_spec (snaps : List Snap) (resp : Nat → DeleteResp) :
    classify_delete (DeleteResp.status 404) = DeleteOutcome.alreadyGone
    ∧ isDeleteError (classify_delete (DeleteResp.status 404)) = false
    ∧ isDeleteError (classify_delete (DeleteResp.status 204)) = false
    ∧ (delete_digitalocean_snapshots snaps resp).map Prod.fst
        = snaps.map Snap.id
    ∧ (delete_hetzner_snapshots snaps resp).map Prod.fst = snaps.map Snap.id
    ∧ (delete_digitalocean_snapshots snaps resp).length = snaps.length
    ∧ (delete_hetzner_snapshots snaps resp).length = snaps.length := by
  have hids := deleteLoop_ids resp snaps 0
  have hlen : (deleteLoop resp snaps 0).length = snaps.length := by
    have := congrArg List.length hids
    simpa using this
  exact ⟨rfl, rfl, rfl, hids, hids, hlen, hlen⟩

/-- The final per-instance record written by `write_final_status`:
status string, snapshot name (or the sentinel `none`), and the
post-reconciliation snapshot count. -/
structure RunResult where
  status : String
  snapshot_name : String
  total_snapshots : Nat
deriving DecidableEq, Repr

/-- `manage_snapshots_for_server` (snapshots.py:1431-1503), as a function
of its interactions: the pre-creation listing `pre`, the retain count, the
result of the create step (`none` = creation failed or timed out), and the
post-mutation re-listing `post`.  Step 2 selects candidates from `pre`;
step 4 deletes exactly those candidates unconditionally (the code reaches
it on every path, before the status is computed); the final status is
`success` iff `snapshot_name` is truthy (Python: non-`None` and
non-empty), and the recorded name falls back to the sentinel `"none"`.
Returns (final record, candidates deleted in step 4). -/
def manage_snapshots_for_server (pre : List Snap) (retain : Nat)
    (createResult : Option String) (post : List Snap) :
    RunResult × List Snap :=
  let to_delete := (identify_snapshots_to_delete pre retain).2
  let status := match createResult with
    | some s => if s = "" then "failure" else "success"
    | none => "failure"
  let finalName := match createResult with
    | some s => if s = "" then "none" else s
    | none => "none"
  (⟨status, finalName, post.length⟩, to_delete)

lemma snapshotName_ne_empty (n : String) (t : Nat) :
    n ++ "-" ++ fmtYYYYMMDDHHMMSS t ≠ "" := by
  intro h
  have hlen := congrArg String.length h
  rw [String.length_append, String.length_append] at hlen
  have h1 : ("-" : String).length = 1 := rfl
  have h0 : ("" : String).length = 0 := rfl
  rw [h1, h0] at hlen
  omega

lemma create_digitalocean_snapshot_ne_empty (serverName : String)
    (clock : Clock) (doPost : Option (Option Nat)) (fuel : Nat)
    (polls : Nat → PollResp) :
    create_digitalocean_snapshot serverName clock doPost fuel polls
      ≠ some "" := by
  cases doPost with
  | none => simp [create_digitalocean_snapshot]
  | some od =>
    cases od with
    | none => simp [create_digitalocean_snapshot]
    | some a =>
      simp only [create_digitalocean_snapshot]
      split
      · intro h
        exact snapshotName_ne_empty serverName clock.localNow
          (Option.some_inj.mp h)
      · simp

lemma create_hetzner_snapshot_ne_empty (serverName : String)
    (clock : Clock) (hPost : Option (Option Nat × Option Nat)) (fuel : Nat)
    (polls : Nat → PollResp) :
    create_hetzner_snapshot serverName clock hPost fuel polls ≠ some "" := by
  cases hPost with
  | none => simp [create_hetzner_snapshot]
  | some p =>
    obtain ⟨a, i⟩ := p
    simp only [create_hetzner_snapshot]
    split
    · split
      · intro h
        exact snapshotName_ne_empty serverName clock.localNow
          (Option.some_inj.mp h)
      · simp
    · simp

/-- Claim C2: in the per-instance workflow, the final status is `success`
iff the create step returned a snapshot name (the hypothesis
`createResult ≠ some ""` is discharged by
`create_digitalocean_snapshot_ne_empty` / `create_hetzner_snapshot_ne_empty`:
generated names always contain a hyphen); when creation failed or timed
out (`createResult = none`) the recorded name is the sentinel `"none"`;
and the records deleted in step 4 are exactly the candidates selected in
step 2 from the pre-creation list, independent of the create step's
outcome. -/
theorem manage_status_iff_created (pre : List Snap) (retain : Nat)
    (createResult : Option String) (post : List Snap)
    (h : createResult ≠ some "") :
    ((manage_snapshots_for_server pre retain createResult post).1.status
        = "success" ↔ createResult.isSome = true)
    ∧ (createResult = none →
        (manage_snapshots_for_server pre retain createResult post).1.snapshot_name
          = "none")
    ∧ (manage_snapshots_for_server pre retain createResult post).2
        = (identify_snapshots_to_delete pre retain).2 := by
  refine ⟨?_, ?_, rfl⟩
  · match createResult with
    | none => simp [manage_snapshots_for_server]
    | some s =>
      have hs : s ≠ "" := fun he => h (by rw [he])
      simp [manage_snapshots_for_server, hs]
  · intro hc
    subst hc
    rfl

/-- Claim C2, witness: with a created name present the status is
`success`; the deleted candidates equal the step-2 selection. -/
theorem manage_status_iff_created_witness :
    ((manage_snapshots_for_server [⟨"1", "srv-a", 3⟩] 0
        (some "srv-19700101000000") []).1.status = "success"
      ↔ (some "srv-19700101000000" : Option String).isSome = true)
    ∧ (manage_snapshots_for_server [⟨"1", "srv-a", 3⟩] 0
        (some "srv-19700101000000") []).2
        = (identify_snapshots_to_delete [⟨"1", "srv-a", 3⟩] 0).2 := by
  have h := manage_status_iff_created [⟨"1", "srv-a", 3⟩] 0
    (some "srv-19700101000000") [] (by decide)
  exact ⟨h.1, h.2.2⟩

/-- The Execution Controller's per-instance accounting
(`run`, snapshots.py:1516-1531): an `Except.ok` outcome is
`manage_snapshots_for_server` returning normally (whatever it logged as
the instance's status), `Except.error` is an exception caught by the
controller; the fold mirrors `success_count` / `failure_count`. -/
def run_counts : List (Except Unit RunResult) → Nat × Nat
  | [] => (0, 0)
  | Except.ok _ :: rest => ((run_counts rest).1 + 1, (run_counts rest).2)
  | Except.error _ :: rest => ((run_counts rest).1, (run_counts rest).2 + 1)

/-- The process termination code computed at the end of `run`
(snapshots.py:1544-1552): `1` when there are failures and no successes,
`2` when there are failures and some successes, and `0` (falling through
without `sys.exit`) when there are no failures — including the
zero-instance case. -/
def run_exit_code (outs : List (Except Unit RunResult)) : Nat :=
  if 0 < (run_counts outs).2 then
    if (run_counts outs).1 = 0 then 1 else 2
  else 0

lemma run_counts_fst (outs : List (Except Unit RunResult)) :
    (run_counts outs).1 = outs.countP (fun o => o.isOk) := by
  induction outs with
  | nil => rfl
  | cons o rest ih =>
    match o with
    | Except.ok r =>
      simp [run_counts, List.countP_cons, ih, Except.isOk, Except.toBool]
    | Except.error e =>
      simp [run_counts, List.countP_cons, ih, Except.isOk, Except.toBool]

lemma run_counts_snd (outs : List (Except Unit RunResult)) :
    (run_counts outs).2 = outs.countP (fun o => !o.isOk) := by
  induction outs with
  | nil => rfl
  | cons o rest ih =>
    match o with
    | Except.ok r =>
      simp [run_counts, List.countP_cons, ih, Except.isOk, Except.toBool]
    | Except.error e =>
      simp [run_counts, List.countP_cons, ih, Except.isOk, Except.toBool]

/-- Claim C3: the process exit code is `0` exactly when no instance was
configured or every instance succeeded (where succeeding means the
controller counted it into `success_count`, i.e. its workflow returned
without raising), `2` exactly when some instance succeeded and some
failed, and `1` exactly when there was at least one instance and all
failed. -/
theorem run_exit_code_spec (outs : List (Except Unit RunResult)) :
    (run_exit_code outs = 0 ↔ (outs = [] ∨ ∀ o ∈ outs, o.isOk = true))
    ∧ (run_exit_code outs = 2 ↔
        ((∃ o ∈ outs, o.isOk = true) ∧ ∃ o ∈ outs, o.isOk = false))
    ∧ (run_exit_code outs = 1 ↔
        (outs ≠ [] ∧ ∀ o ∈ outs, o.isOk = false)) := by
  have hs := run_counts_fst outs
  have hf := run_counts_snd outs
  have hfail_pos : 0 < (run_counts outs).2 ↔ ∃ o ∈ outs, o.isOk = false := by
    rw [hf, List.countP_pos_iff]
    simp
  have hsucc_pos : 0 < (run_counts outs).1 ↔ ∃ o ∈ outs, o.isOk = true := by
    rw [hs, List.countP_pos_iff]
  have hfail_zero : (run_counts outs).2 = 0 ↔ ∀ o ∈ outs, o.isOk = true := by
    rw [hf, List.countP_eq_zero]
    simp
  have hsucc_zero : (run_counts outs).1 = 0 ↔ ∀ o ∈ outs, o.isOk = false := by
    rw [hs, List.countP_eq_zero]
    simp
  refine ⟨?_, ?_, ?_⟩
  · have h0 : run_exit_code outs = 0 ↔ (run_counts outs).2 = 0 := by
      rw [run_exit_code]
      by_cases hpos : 0 < (run_counts outs).2
      · rw [if_pos hpos]
        constructor
        · intro h
          by_cases hz : (run_counts outs).1 = 0
          · rw [if_pos hz] at h; exact absurd h (by decide)
          · rw [if_neg hz] at h; exact absurd h (by decide)
        · intro h; omega
      · rw [if_neg hpos]
        exact ⟨fun _ => by omega, fun _ => rfl⟩
    rw [h0, hfail_zero]
    constructor
    · exact fun hall => Or.inr hall
    · rintro (rfl | hall)
      · intro o ho; exact absurd ho (List.not_mem_nil o)
      · exact hall
  · rw [run_exit_code]
    by_cases hpos : 0 < (run_counts outs).2
    · rw [if_pos hpos]
      by_cases hz : (run_counts outs).1 = 0
      · rw [if_pos hz]
        constructor
        · intro h; exact absurd h (by decide)
        · rintro ⟨⟨o, ho, hok⟩, _⟩
          have hfo := hsucc_zero.mp hz o ho
          rw [hok] at hfo
          exact absurd hfo (by decide)
      · rw [if_neg hz]
        have hex : ∃ o ∈ outs, o.isOk = true :=
          hsucc_pos.mp (Nat.pos_of_ne_zero hz)
        exact iff_of_true rfl ⟨hex, hfail_pos.mp hpos⟩
    · rw [if_neg hpos]
      constructor
      · intro h; exact absurd h (by decide)
      · rintro ⟨_, hex⟩
        exact absurd (hfail_pos.mpr hex) hpos
  · rw [run_exit_code]
    by_cases hpos : 0 < (run_counts outs).2
    · rw [if_pos hpos]
      by_cases hz : (run_counts outs).1 = 0
      · rw [if_pos hz]
        refine iff_of_true rfl ⟨?_, hsucc_zero.mp hz⟩
        obtain ⟨o, ho, _⟩ := hfail_pos.mp hpos
        exact fun he => absurd (he ▸ ho) (List.not_mem_nil o)
      · rw [if_neg hz]
        constructor
        · intro h; exact absurd h (by decide)
        · rintro ⟨_, hall⟩
          exact absurd (hsucc_zero.mpr hall) hz
    · rw [if_neg hpos]
      constructor
      · intro h; exact absurd h (by decide)
      · rintro ⟨hne, hall⟩
        obtain ⟨o, ho⟩ := List.exists_mem_of_ne_nil outs hne
        exact absurd (hfail_pos.mpr ⟨o, ho, hall o ho⟩) hpos

lemma run_counts_map_ok (results : List RunResult) :
    run_counts (results.map Except.ok) = (results.length, 0) := by
  induction results with
  | nil => rfl
  | cons r rest ih => simp [run_counts, ih]

/-- Claim C10 (implicit behaviour, confirmed): the controller's success
counter counts an instance whenever `manage_snapshots_for_server` returns
without raising, even when the instance's final status is `failure`
(creation returned nothing); so a run in which every instance's creation
failed — modelled as `createResult = none` for each, each workflow
returning normally — counts all instances as succeeded and exits with
code `0`, not `1` or `2`. -/
theorem run_success_counts_despite_failure
    (inputs : List (List Snap × Nat × List Snap)) :
    (∀ x ∈ inputs,
      (manage_snapshots_for_server x.1 x.2.1 none x.2.2).1.status = "failure")
    ∧ (run_counts (inputs.map (fun x =>
        Except.ok (manage_snapshots_for_server x.1 x.2.1 none x.2.2).1))).1
        = inputs.length
    ∧ run_exit_code (inputs.map (fun x =>
        Except.ok (manage_snapshots_for_server x.1 x.2.1 none x.2.2).1)) = 0 := by
  have hmap :
      inputs.map (fun x =>
          Except.ok (ε := Unit)
            (manage_snapshots_for_server x.1 x.2.1 none x.2.2).1)
        = (inputs.map (fun x =>
            (manage_snapshots_for_server x.1 x.2.1 none x.2.2).1)).map
            Except.ok := by
    rw [List.map_map]
    rfl
  refine ⟨fun x _ => rfl, ?_, ?_⟩
  · rw [hmap, run_counts_map_ok, List.length_map]
  · rw [run_exit_code, hmap, run_counts_map_ok]
    simp
